import Mathlib

/-!
Shallow embedding of the simulation core of `src/webgl-particles.js`
(Havkiin/WebGL-Cursor-Particles).

The numeric values the script manipulates are JavaScript numbers.  All
values actually produced by this program are either ordinary finite
numbers or NaN (which arises from arithmetic on the uninitialized
variables `wantedRadius` and `lerpStart`), so we model a JavaScript
number by `JsNum`: either `nan` or an exact rational `num q`.  In
JavaScript, `undefined` entering an arithmetic operator is converted to
NaN, and every arithmetic operation with a NaN operand yields NaN, so an
uninitialized (`undefined`) variable read only ever arithmetically
behaves as NaN in this program; we therefore model `undefined` as
`JsNum.nan` as well.  Comparisons (`>`, `<`) involving NaN are false,
and `Math.min` / `Math.max` return NaN when any argument is NaN.

The matrix component `m3` computes with `Math.cos` / `Math.sin`, so it
is embedded over the real numbers in a separate set of definitions.
-/

namespace Particles

/-- A JavaScript number as used by this program: NaN, or a finite value
modelled as an exact rational. -/
inductive JsNum where
  | nan : JsNum
  | num : ℚ → JsNum
deriving DecidableEq, Repr, Inhabited

namespace JsNum

/-- JavaScript `+` on numbers: NaN absorbs. -/
def add : JsNum → JsNum → JsNum
  | num a, num b => num (a + b)
  | _, _ => nan

/-- JavaScript `-` on numbers: NaN absorbs. -/
def sub : JsNum → JsNum → JsNum
  | num a, num b => num (a - b)
  | _, _ => nan

/-- JavaScript `*` on numbers: NaN absorbs. -/
def mul : JsNum → JsNum → JsNum
  | num a, num b => num (a * b)
  | _, _ => nan

instance : Add JsNum := ⟨add⟩
instance : Sub JsNum := ⟨sub⟩
instance : Mul JsNum := ⟨mul⟩

/-- JavaScript `a > b` on numbers: false whenever an operand is NaN. -/
def gt : JsNum → JsNum → Bool
  | num a, num b => decide (b < a)
  | _, _ => false

/-- `Math.min`: NaN if any argument is NaN. -/
def jsMin : JsNum → JsNum → JsNum
  | num a, num b => num (min a b)
  | _, _ => nan

/-- `Math.max`: NaN if any argument is NaN. -/
def jsMax : JsNum → JsNum → JsNum
  | num a, num b => num (max a b)
  | _, _ => nan

@[simp] theorem num_add_num (a b : ℚ) : num a + num b = num (a + b) := rfl

@[simp] theorem num_sub_num (a b : ℚ) : num a - num b = num (a - b) := rfl

@[simp] theorem num_mul_num (a b : ℚ) : num a * num b = num (a * b) := rfl

@[simp] theorem nan_add (a : JsNum) : nan + a = nan := rfl

@[simp] theorem add_nan (a : JsNum) : a + nan = nan := by cases a <;> rfl

@[simp] theorem nan_sub (a : JsNum) : nan - a = nan := rfl

@[simp] theorem sub_nan (a : JsNum) : a - nan = nan := by cases a <;> rfl

@[simp] theorem nan_mul (a : JsNum) : nan * a = nan := rfl

@[simp] theorem mul_nan (a : JsNum) : a * nan = nan := by cases a <;> rfl

@[simp] theorem gt_num_num (a b : ℚ) : gt (num a) (num b) = decide (b < a) := rfl

@[simp] theorem nan_gt (a : JsNum) : gt nan a = false := rfl

@[simp] theorem gt_nan (a : JsNum) : gt a nan = false := by cases a <;> rfl

@[simp] theorem jsMin_num_num (a b : ℚ) : jsMin (num a) (num b) = num (min a b) := rfl

@[simp] theorem jsMax_num_num (a b : ℚ) : jsMax (num a) (num b) = num (max a b) := rfl

@[simp] theorem jsMin_nan (a : JsNum) : jsMin nan a = nan := rfl

@[simp] theorem jsMin_nan_right (a : JsNum) : jsMin a nan = nan := by cases a <;> rfl

@[simp] theorem jsMax_nan (a : JsNum) : jsMax nan a = nan := rfl

@[simp] theorem jsMax_nan_right (a : JsNum) : jsMax a nan = nan := by cases a <;> rfl

end JsNum

open JsNum

/-- Source `clamp(x, min, max)` at line 217:
`return Math.min(Math.max(x, min), max)`. -/
def clamp (x lo hi : JsNum) : JsNum := jsMin (jsMax x lo) hi

/-- Source `lerp(a, b, alpha)` at line 221:
`alpha = clamp(alpha, 0, 1); return a + alpha * (b - a)`. -/
def lerp (a b alpha : JsNum) : JsNum := a + clamp alpha (num 0) (num 1) * (b - a)

/-- One entry of `squaresData` (source lines 119-125): the five-element
array `[posX, posY, rotationInRadians, scaleX, scaleY]`. -/
structure Square where
  x : JsNum
  y : JsNum
  rotationInRadians : JsNum
  scaleX : JsNum
  scaleY : JsNum
deriving DecidableEq, Repr, Inhabited

/-- The mutable top-level state of `main()`: the mouse position (lines
76-81), the radius-transition variables (line 84), the color toggle
(line 103) and the `squaresData` array (line 110).  `wantedRadius` and
`lerpStart` are declared without initializers, so they start as
`undefined`, modelled as `JsNum.nan` (see the header comment). -/
structure SimState where
  mouseX : ℚ
  mouseY : ℚ
  radius : JsNum
  wantedRadius : JsNum
  lerpStart : JsNum
  colorMode : Bool
  squares : List Square
deriving DecidableEq, Repr

/-- Source line 111: `const numberOfSquares = 100`. -/
def numberOfSquares : ℕ := 100

/-- Source line 112: `const maxOffset = 0.5`. -/
def maxOffset : ℚ := 0.5

/-- One iteration of the init loop (lines 115-126): position randomized
by two `Math.random()` draws `r1`, `r2` scaled by the canvas size and
`maxOffset`; rotation 0, scale (1, 1). -/
def initSquare (width height r1 r2 : ℚ) : Square :=
  { x := num (width * r1 * maxOffset)
    y := num (height * r2 * maxOffset)
    rotationInRadians := num 0
    scaleX := num 1
    scaleY := num 1 }

/-- The `squaresData` array after the init loop, with the random draws
supplied by the stream `rng` (two consecutive draws per square). -/
def initSquares (width height : ℚ) (rng : ℕ → ℚ) : List Square :=
  (List.range numberOfSquares).map fun i => initSquare width height (rng (2 * i)) (rng (2 * i + 1))

/-- The state of `main()` right after initialization, before any event
has fired: `radius = 50`, `wantedRadius` and `lerpStart` undefined
(line 84), `colorMode = false` (line 103), mouse at (0, 0) (line 76). -/
def initState (width height : ℚ) (rng : ℕ → ℚ) : SimState :=
  { mouseX := 0
    mouseY := 0
    radius := num 50
    wantedRadius := JsNum.nan
    lerpStart := JsNum.nan
    colorMode := false
    squares := initSquares width height rng }

/-- The `mousemove` listener (lines 77-81): store the event position. -/
def onMousemove (s : SimState) (x y : ℚ) : SimState :=
  { s with mouseX := x, mouseY := y }

/-- The `mousedown` listener (lines 85-92): on the left button
(`event.button == 0`) set `radius = 50`, `wantedRadius = 200`,
`lerpStart = performance.now()`; otherwise do nothing. -/
def onMousedown (s : SimState) (button : ℕ) (now : ℚ) : SimState :=
  if button = 0 then
    { s with radius := num 50, wantedRadius := num 200, lerpStart := num now }
  else s

/-- The `mouseup` listener (lines 93-100): on the left button set
`radius = 200`, `wantedRadius = 50`, `lerpStart = performance.now()`;
otherwise do nothing. -/
def onMouseup (s : SimState) (button : ℕ) (now : ℚ) : SimState :=
  if button = 0 then
    { s with radius := num 200, wantedRadius := num 50, lerpStart := num now }
  else s

/-- The `keydown` listener (lines 104-108): the key `c` toggles
`colorMode`. -/
def onKeydown (s : SimState) (key : String) : SimState :=
  if key = "c" then { s with colorMode := !s.colorMode } else s

/-- A point object `{ x, y, z }` as produced by
`generatePointsInSphere`. -/
structure P3 where
  x : JsNum
  y : JsNum
  z : JsNum
deriving DecidableEq, Repr, Inhabited

/-- The candidate built by one iteration of the do-while body (source
lines 233-243): with the three `Math.random()` draws `u`, `v`, `w`,
`x = (u * 2 - 1) * radius` and so on, then the point is the
component-wise translation of `(x, y, z)` by `center`. -/
def candidatePoint (center : P3) (radius : JsNum) (u v w : ℚ) : P3 :=
  { x := center.x + (num u * num 2 - num 1) * radius
    y := center.y + (num v * num 2 - num 1) * radius
    z := center.z + (num w * num 2 - num 1) * radius }

/-- The do-while continuation condition (source line 246):
`(point.x - center.x) ** 2 + (point.y - center.y) ** 2 +
(point.z - center.z) ** 2 > radius ** 2`, with JavaScript `>`
semantics (false on NaN). -/
def outsideSphere (center : P3) (radius : JsNum) (p : P3) : Bool :=
  gt ((p.x - center.x) * (p.x - center.x) + (p.y - center.y) * (p.y - center.y) +
      (p.z - center.z) * (p.z - center.z)) (radius * radius)

/-- The do-while rejection loop for one point (source lines 232-246).
The loop is not structurally bounded in the source, so the embedding
carries an explicit `fuel` bound on the number of iterations and
returns `none` when it is exhausted; on success it returns the accepted
point and the index of the next unconsumed `Math.random()` draw (each
iteration consumes the three draws `rng k`, `rng (k+1)`, `rng (k+2)`). -/
def samplePoint (center : P3) (radius : JsNum) (rng : ℕ → ℚ) : ℕ → ℕ → Option (P3 × ℕ)
  | 0, _ => none
  | fuel + 1, k =>
    let p := candidatePoint center radius (rng k) (rng (k + 1)) (rng (k + 2))
    if outsideSphere center radius p then samplePoint center radius rng fuel (k + 3)
    else some (p, k + 3)

/-- Source `generatePointsInSphere(center, radius, numPoints)` (lines
227-252): `numPoints` points, each produced by the rejection loop, in
order, threading the random stream; `none` if any rejection loop runs
out of fuel. -/
def generatePointsInSphere (center : P3) (radius : JsNum) (rng : ℕ → ℚ) (fuel : ℕ) :
    ℕ → ℕ → Option (List P3 × ℕ)
  | 0, k => some ([], k)
  | n + 1, k =>
    match samplePoint center radius rng fuel k with
    | none => none
    | some (p, k1) =>
      match generatePointsInSphere center radius rng fuel n k1 with
      | none => none
      | some (ps, k2) => some (p :: ps, k2)

/-- Source line 147: `const newRadius = lerp(radius, wantedRadius,
(performance.now() - lerpStart) * 0.005)`. -/
def newRadius (s : SimState) (now : ℚ) : JsNum :=
  lerp s.radius s.wantedRadius ((num now - s.lerpStart) * num 0.005)

/-- Source line 150: `const squareWidth = 5`. -/
def squareWidth : JsNum := num 5

/-- Source line 151: `const squareHeight = 5`. -/
def squareHeight : JsNum := num 5

/-- The six vertices uploaded for one square: the two triangles built at
lines 162-165 from the pre-update position `(x, y)`, flattened in order
by `setTriangles` (lines 198-212). -/
def triangleVertices (x y : JsNum) : List (JsNum × JsNum) :=
  [(x, y), (x + squareWidth, y), (x, y + squareHeight),
   (x + squareWidth, y), (x + squareWidth, y + squareHeight), (x, y + squareHeight)]

/-- One draw command emitted for one square in the loop at lines
152-193: the uploaded geometry and the parameters from which the
`u_matrix` uniform is composed at lines 171-179 (the matrix arithmetic
itself is embedded separately as `m3` below; the color uniform of line
185 is independent of the claims and not recorded). -/
structure DrawCommand where
  vertices : List (JsNum × JsNum)
  translation : JsNum × JsNum
  rotationInRadians : JsNum
  scaleX : JsNum
  scaleY : JsNum
deriving DecidableEq, Repr, Inhabited

/-- The body of the per-square loop (lines 152-193) for one square `sq`
and its sphere point `pt`: destructure the five stored fields first,
update the stored position to `(pt.x * 0.5, pt.y * 0.5)` (lines
158-159), and build the geometry and the transform parameters from the
destructured (pre-update) values. -/
def processSquare (sq : Square) (pt : P3) : DrawCommand × Square :=
  ({ vertices := triangleVertices sq.x sq.y
     translation := (sq.x, sq.y)
     rotationInRadians := sq.rotationInRadians
     scaleX := sq.scaleX
     scaleY := sq.scaleY },
   { sq with x := pt.x * num 0.5, y := pt.y * num 0.5 })

/-- The simulation core of one `drawScene` call (lines 128-196): compute
`newRadius`, sample one sphere point per square around the mouse
position with `z = 0` (line 148; `squaresData` always holds
`numberOfSquares` entries, so the count is the length of the list), and
run the per-square loop, collecting the emitted draw commands and the
updated `squaresData`. -/
def drawSceneStep (s : SimState) (now : ℚ) (rng : ℕ → ℚ) (fuel : ℕ) :
    Option (List DrawCommand × SimState) :=
  match generatePointsInSphere ⟨num s.mouseX, num s.mouseY, num 0⟩ (newRadius s now) rng fuel
      s.squares.length 0 with
  | none => none
  | some (pts, _) =>
    let steps := (s.squares.zip pts).map fun pr => processSquare pr.1 pr.2
    some (steps.map Prod.fst, { s with squares := steps.map Prod.snd })

/-- An external stimulus or a frame, for describing reachable states:
each frame carries its own fresh view of the random stream and a fuel
bound for the rejection loops (a frame whose rejection loop would not
terminate leaves no successor state, so `step` keeps the state). -/
inductive Event where
  | mousemove (x y : ℚ)
  | mousedown (button : ℕ) (now : ℚ)
  | mouseup (button : ℕ) (now : ℚ)
  | keydown (key : String)
  | frame (now : ℚ) (rng : ℕ → ℚ) (fuel : ℕ)

/-- The state transition of one delivered event. -/
def step (s : SimState) : Event → SimState
  | .mousemove x y => onMousemove s x y
  | .mousedown b now => onMousedown s b now
  | .mouseup b now => onMouseup s b now
  | .keydown k => onKeydown s k
  | .frame now rng fuel =>
    match drawSceneStep s now rng fuel with
    | none => s
    | some (_, s1) => s1

/-- A 3x3 matrix as `m3` produces it: the nine entries of the flat
row-major array, `mIJ` being entry `a[I * 3 + J]`.  The entries are
real numbers because `m3.rotation` computes `Math.cos` / `Math.sin`. -/
structure Mat3 where
  m00 : ℝ
  m01 : ℝ
  m02 : ℝ
  m10 : ℝ
  m11 : ℝ
  m12 : ℝ
  m20 : ℝ
  m21 : ℝ
  m22 : ℝ

namespace m3

/-- Source `m3.projection(width, height)` (lines 255-262):
`[2/width, 0, 0, 0, -2/height, 0, -1, 1, 1]`. -/
noncomputable def projection (width height : ℝ) : Mat3 :=
  ⟨2 / width, 0, 0, 0, -2 / height, 0, -1, 1, 1⟩

/-- Source `m3.translation(tx, ty)` (lines 264-270). -/
def translation (tx ty : ℝ) : Mat3 :=
  ⟨1, 0, 0, 0, 1, 0, tx, ty, 1⟩

/-- Source `m3.rotation(angleInRadians)` (lines 272-280):
`c = Math.cos(angle)`, `s = Math.sin(angle)`, array
`[c, -s, 0, s, c, 0, 0, 0, 1]`. -/
noncomputable def rotation (angleInRadians : ℝ) : Mat3 :=
  ⟨Real.cos angleInRadians, -Real.sin angleInRadians, 0,
   Real.sin angleInRadians, Real.cos angleInRadians, 0, 0, 0, 1⟩

/-- Source `m3.scaling(sx, sy)` (lines 282-288). -/
def scaling (sx sy : ℝ) : Mat3 :=
  ⟨sx, 0, 0, 0, sy, 0, 0, 0, 1⟩

/-- Source `m3.multiply(a, b)` (lines 290-320), entry by entry: the
entry `[i * 3 + j]` of the result is `sum over k` of
`b[i * 3 + k] * a[k * 3 + j]`. -/
def multiply (a b : Mat3) : Mat3 :=
  ⟨b.m00 * a.m00 + b.m01 * a.m10 + b.m02 * a.m20,
   b.m00 * a.m01 + b.m01 * a.m11 + b.m02 * a.m21,
   b.m00 * a.m02 + b.m01 * a.m12 + b.m02 * a.m22,
   b.m10 * a.m00 + b.m11 * a.m10 + b.m12 * a.m20,
   b.m10 * a.m01 + b.m11 * a.m11 + b.m12 * a.m21,
   b.m10 * a.m02 + b.m11 * a.m12 + b.m12 * a.m22,
   b.m20 * a.m00 + b.m21 * a.m10 + b.m22 * a.m20,
   b.m20 * a.m01 + b.m21 * a.m11 + b.m22 * a.m21,
   b.m20 * a.m02 + b.m21 * a.m12 + b.m22 * a.m22⟩

end m3

/-- The effect of the vertex shader on a homogeneous point: the shader
computes `u_matrix * vec3(a_position, 1)` (source line 16).
`gl.uniformMatrix3fv(..., false, matrix)` (line 182) uploads the flat
array without transposition, so GLSL reads its rows as columns, and the
GLSL product applies the row-major array `m` to the row vector
`(x, y, z)` on the left: component `j` of the result is
`sum over i` of `v[i] * m[i * 3 + j]`. -/
def applyMat (m : Mat3) (v : ℝ × ℝ × ℝ) : ℝ × ℝ × ℝ :=
  (v.1 * m.m00 + v.2.1 * m.m10 + v.2.2 * m.m20,
   v.1 * m.m01 + v.2.1 * m.m11 + v.2.2 * m.m21,
   v.1 * m.m02 + v.2.1 * m.m12 + v.2.2 * m.m22)

/-- The composite `u_matrix` of lines 176-179:
`multiply(multiply(multiply(projection, translation), rotation),
scale)`. -/
noncomputable def composedMatrix (width height tx ty angle sx sy : ℝ) : Mat3 :=
  m3.multiply (m3.multiply (m3.multiply (m3.projection width height) (m3.translation tx ty))
      (m3.rotation angle))
    (m3.scaling sx sy)

/-! ### Helper lemmas about the radius interpolation -/

theorem newRadius_num (mx my a b t0 now : ℚ) (cm : Bool) (sqs : List Square) :
    newRadius ⟨mx, my, num a, num b, num t0, cm, sqs⟩ now =
      num (a + min (max ((now - t0) * 0.005) 0) 1 * (b - a)) := by
  simp [newRadius, lerp, clamp]

theorem newRadius_initState (w h : ℚ) (rng : ℕ → ℚ) (now : ℚ) :
    newRadius (initState w h rng) now = JsNum.nan := by
  simp [newRadius, initState, lerp, clamp]

/-! ### Helper lemmas about the sphere sampler -/

theorem candidatePoint_num (cx cy cz r u v w : ℚ) :
    candidatePoint ⟨num cx, num cy, num cz⟩ (num r) u v w =
      ⟨num (cx + (u * 2 - 1) * r), num (cy + (v * 2 - 1) * r), num (cz + (w * 2 - 1) * r)⟩ := by
  simp [candidatePoint]

theorem outsideSphere_num (cx cy cz r px py pz : ℚ) :
    outsideSphere ⟨num cx, num cy, num cz⟩ (num r) ⟨num px, num py, num pz⟩ =
      decide (r * r <
        (px - cx) * (px - cx) + (py - cy) * (py - cy) + (pz - cz) * (pz - cz)) := by
  simp [outsideSphere]

theorem samplePoint_num_sound (cx cy cz r : ℚ) (rng : ℕ → ℚ) :
    ∀ fuel k p k2, samplePoint ⟨num cx, num cy, num cz⟩ (num r) rng fuel k = some (p, k2) →
      ∃ px py pz : ℚ, p = ⟨num px, num py, num pz⟩ ∧
        (px - cx) * (px - cx) + (py - cy) * (py - cy) + (pz - cz) * (pz - cz) ≤ r * r := by
  intro fuel
  induction fuel with
  | zero => intro k p k2 h; simp [samplePoint] at h
  | succ fuel ih =>
    intro k p k2 h
    rw [samplePoint] at h
    simp only [candidatePoint_num, outsideSphere_num] at h
    split at h
    · exact ih (k + 3) p k2 h
    · rename_i hacc
      rw [Option.some.injEq, Prod.mk.injEq] at h
      refine ⟨cx + (rng k * 2 - 1) * r, cy + (rng (k + 1) * 2 - 1) * r,
        cz + (rng (k + 2) * 2 - 1) * r, h.1.symm, ?_⟩
      simpa using not_lt.mp (by simpa using hacc)

theorem generatePoints_length (c : P3) (radius : JsNum) (rng : ℕ → ℚ) (fuel : ℕ) :
    ∀ n k ps k2, generatePointsInSphere c radius rng fuel n k = some (ps, k2) →
      ps.length = n := by
  intro n
  induction n with
  | zero =>
    intro k ps k2 h
    rw [generatePointsInSphere, Option.some.injEq, Prod.mk.injEq] at h
    simp [← h.1]
  | succ n ih =>
    intro k ps k2 h
    rw [generatePointsInSphere] at h
    split at h
    · exact absurd h (by simp)
    · rename_i p k1 hp
      split at h
      · exact absurd h (by simp)
      · rename_i ps1 k3 hps
        rw [Option.some.injEq, Prod.mk.injEq] at h
        rw [← h.1, List.length_cons, ih k1 ps1 k3 hps]

theorem generatePoints_num_sound (cx cy cz r : ℚ) (rng : ℕ → ℚ) (fuel : ℕ) :
    ∀ n k ps k2,
      generatePointsInSphere ⟨num cx, num cy, num cz⟩ (num r) rng fuel n k = some (ps, k2) →
      ∀ p ∈ ps, ∃ px py pz : ℚ, p = ⟨num px, num py, num pz⟩ ∧
        (px - cx) * (px - cx) + (py - cy) * (py - cy) + (pz - cz) * (pz - cz) ≤ r * r := by
  intro n
  induction n with
  | zero =>
    intro k ps k2 h
    rw [generatePointsInSphere, Option.some.injEq, Prod.mk.injEq] at h
    rw [← h.1]
    simp
  | succ n ih =>
    intro k ps k2 h
    rw [generatePointsInSphere] at h
    split at h
    · exact absurd h (by simp)
    · rename_i p k1 hp
      split at h
      · exact absurd h (by simp)
      · rename_i ps1 k3 hps
        rw [Option.some.injEq, Prod.mk.injEq] at h
        rw [← h.1]
        intro q hq
        rcases List.mem_cons.mp hq with hq | hq
        · exact hq ▸ samplePoint_num_sound cx cy cz r rng fuel k p k1 hp
        · exact ih k1 ps1 k3 hps q hq

theorem candidatePoint_nan (c : P3) (u v w : ℚ) :
    candidatePoint c JsNum.nan u v w = ⟨JsNum.nan, JsNum.nan, JsNum.nan⟩ := by
  simp [candidatePoint]

theorem samplePoint_nan (c : P3) (rng : ℕ → ℚ) (fuel k : ℕ) :
    samplePoint c JsNum.nan rng (fuel + 1) k =
      some (⟨JsNum.nan, JsNum.nan, JsNum.nan⟩, k + 3) := by
  rw [samplePoint]
  simp [candidatePoint_nan, outsideSphere]

theorem generatePoints_nan (c : P3) (rng : ℕ → ℚ) (fuel : ℕ) :
    ∀ n k, generatePointsInSphere c JsNum.nan rng (fuel + 1) n k =
      some (List.replicate n ⟨JsNum.nan, JsNum.nan, JsNum.nan⟩, k + 3 * n) := by
  intro n
  induction n with
  | zero => intro k; simp [generatePointsInSphere]
  | succ n ih =>
    intro k
    simp only [generatePointsInSphere, samplePoint_nan, ih (k + 3)]
    simp [List.replicate_succ]
    omega

theorem candidatePoint_radius_zero (cx cy cz u v w : ℚ) :
    candidatePoint ⟨num cx, num cy, num cz⟩ (num 0) u v w = ⟨num cx, num cy, num cz⟩ := by
  simp [candidatePoint]

theorem samplePoint_radius_zero (cx cy cz : ℚ) (rng : ℕ → ℚ) (fuel k : ℕ) :
    samplePoint ⟨num cx, num cy, num cz⟩ (num 0) rng (fuel + 1) k =
      some (⟨num cx, num cy, num cz⟩, k + 3) := by
  rw [samplePoint]
  simp [candidatePoint_radius_zero, outsideSphere_num]

theorem generatePoints_radius_zero (cx cy cz : ℚ) (rng : ℕ → ℚ) (fuel : ℕ) :
    ∀ n k, generatePointsInSphere ⟨num cx, num cy, num cz⟩ (num 0) rng (fuel + 1) n k =
      some (List.replicate n ⟨num cx, num cy, num cz⟩, k + 3 * n) := by
  intro n
  induction n with
  | zero => intro k; simp [generatePointsInSphere]
  | succ n ih =>
    intro k
    simp only [generatePointsInSphere, samplePoint_radius_zero, ih (k + 3)]
    simp [List.replicate_succ]
    omega

/-! ### Helper lemmas about one drawScene tick -/

theorem drawSceneStep_eq_some (s : SimState) (now : ℚ) (rng : ℕ → ℚ) (fuel : ℕ)
    (pts : List P3) (k : ℕ)
    (hg : generatePointsInSphere ⟨num s.mouseX, num s.mouseY, num 0⟩ (newRadius s now) rng fuel
      s.squares.length 0 = some (pts, k)) :
    drawSceneStep s now rng fuel =
      some ((s.squares.zip pts).map fun pr => (processSquare pr.1 pr.2).1,
        { s with squares := (s.squares.zip pts).map fun pr => (processSquare pr.1 pr.2).2 }) := by
  unfold drawSceneStep
  rw [hg]
  simp [List.map_map, Function.comp]

theorem initSquares_length (w h : ℚ) (rng : ℕ → ℚ) :
    (initSquares w h rng).length = numberOfSquares := by
  simp [initSquares]

/-! ### Claim theorems -/

/-- C1, counterexample: in a state whose transition from 50 toward 200
started at time 0, the interpolated radius at time 100 is 125, yet the
`mousedown` handler fired at time 100 restarts the transition with
start radius 50, not 125: the new start radius is a constant, not the
in-progress interpolated radius. -/
theorem mousedown_midtransition_ignores_current_radius :
    newRadius ⟨0, 0, num 50, num 200, num 0, false, []⟩ 100 = num 125 ∧
      (onMousedown ⟨0, 0, num 50, num 200, num 0, false, []⟩ 0 100).radius = num 50 ∧
      (onMousedown ⟨0, 0, num 50, num 200, num 0, false, []⟩ 0 100).radius ≠
        newRadius ⟨0, 0, num 50, num 200, num 0, false, []⟩ 100 := by
  have h : newRadius ⟨0, 0, num 50, num 200, num 0, false, []⟩ 100 = num 125 := by
    rw [newRadius_num]
    norm_num [max_def, min_def]
  refine ⟨h, by simp [onMousedown], ?_⟩
  rw [h]
  simp [onMousedown]

/-- C1, amended: a left-button `mousedown` sets the target radius to 200
and restarts the interpolation with the start radius reset to the
constant 50 (and `mouseup` sets the target to 50 with the start reset
to the constant 200), regardless of any in-progress transition; the
radius then interpolates from that constant at 0.005 alpha per
millisecond. -/
theorem click_restarts_transition_from_constants (s : SimState) (now e : ℚ) (he : 0 ≤ e) :
    onMousedown s 0 now =
        { s with radius := num 50, wantedRadius := num 200, lerpStart := num now } ∧
      onMouseup s 0 now =
        { s with radius := num 200, wantedRadius := num 50, lerpStart := num now } ∧
      newRadius (onMousedown s 0 now) (now + e) =
        num (50 + min (e * 0.005) 1 * (200 - 50)) ∧
      newRadius (onMouseup s 0 now) (now + e) =
        num (200 + min (e * 0.005) 1 * (50 - 200)) := by
  have hne : now + e - now = e := by ring
  have hmax : max (e * 0.005) 0 = e * 0.005 := max_eq_left (by positivity)
  have hd : onMousedown s 0 now =
      { s with radius := num 50, wantedRadius := num 200, lerpStart := num now } := by
    simp [onMousedown]
  have hu : onMouseup s 0 now =
      { s with radius := num 200, wantedRadius := num 50, lerpStart := num now } := by
    simp [onMouseup]
  refine ⟨hd, hu, ?_, ?_⟩
  · rw [hd]
    simp only [newRadius, lerp, clamp, num_sub_num, num_mul_num,
      jsMax_num_num, jsMin_num_num, num_add_num]
    rw [hne, hmax]
  · rw [hu]
    simp only [newRadius, lerp, clamp, num_sub_num, num_mul_num,
      jsMax_num_num, jsMin_num_num, num_add_num]
    rw [hne, hmax]

/-- C1, witness for the amended claim at a concrete input: mousedown and
mouseup delivered at time 7, evaluated 100 milliseconds later. -/
theorem click_restarts_transition_from_constants_witness :
    onMousedown ⟨3, 4, num 80, JsNum.nan, JsNum.nan, false, []⟩ 0 7 =
        { (⟨3, 4, num 80, JsNum.nan, JsNum.nan, false, []⟩ : SimState) with
            radius := num 50, wantedRadius := num 200, lerpStart := num 7 } ∧
      onMouseup ⟨3, 4, num 80, JsNum.nan, JsNum.nan, false, []⟩ 0 7 =
        { (⟨3, 4, num 80, JsNum.nan, JsNum.nan, false, []⟩ : SimState) with
            radius := num 200, wantedRadius := num 50, lerpStart := num 7 } ∧
      newRadius (onMousedown ⟨3, 4, num 80, JsNum.nan, JsNum.nan, false, []⟩ 0 7) (7 + 100) =
        num (50 + min ((100 : ℚ) * 0.005) 1 * (200 - 50)) ∧
      newRadius (onMouseup ⟨3, 4, num 80, JsNum.nan, JsNum.nan, false, []⟩ 0 7) (7 + 100) =
        num (200 + min ((100 : ℚ) * 0.005) 1 * (50 - 200)) :=
  click_restarts_transition_from_constants ⟨3, 4, num 80, JsNum.nan, JsNum.nan, false, []⟩ 7 100
    (by norm_num)

/-- C2, code evaluated at the failing input: in the initial state (no
mouse button event has ever fired), the per-tick radius computed at
line 147 is NaN for every tick time, not the initial constant 50,
because `wantedRadius` and `lerpStart` are still undefined. -/
theorem initial_tick_radius_is_nan (w h : ℚ) (rng0 : ℕ → ℚ) (now : ℚ) :
    newRadius (initState w h rng0) now = JsNum.nan ∧
      newRadius (initState w h rng0) now ≠ num 50 := by
  refine ⟨newRadius_initState w h rng0 now, ?_⟩
  rw [newRadius_initState]
  simp

/-- C6: in a state whose transition has start radius 50, target 200 and
transition start time `t0`, the per-tick radius is 50 at elapsed 0,
125 at elapsed 100 milliseconds, and exactly 200 (clamped) at elapsed
200 milliseconds and at every later time. -/
theorem radius_interpolation_scenario (mx my t0 : ℚ) (cm : Bool) (sqs : List Square) :
    newRadius ⟨mx, my, num 50, num 200, num t0, cm, sqs⟩ t0 = num 50 ∧
      newRadius ⟨mx, my, num 50, num 200, num t0, cm, sqs⟩ (t0 + 100) = num 125 ∧
      ∀ e : ℚ, 200 ≤ e →
        newRadius ⟨mx, my, num 50, num 200, num t0, cm, sqs⟩ (t0 + e) = num 200 := by
  refine ⟨?_, ?_, ?_⟩
  · rw [newRadius_num]
    norm_num [max_def, min_def]
  · rw [newRadius_num]
    have hne : t0 + 100 - t0 = (100 : ℚ) := by ring
    rw [hne]
    norm_num [max_def, min_def]
  · intro e he
    rw [newRadius_num]
    have hne : t0 + e - t0 = e := by ring
    rw [hne]
    have h1 : (1 : ℚ) ≤ e * 0.005 := by nlinarith
    rw [max_eq_left (by linarith), min_eq_right h1]
    norm_num

/-- C6, witness at a concrete input: transition start time 0, evaluated
at elapsed 0, 100 and 500 milliseconds. -/
theorem radius_interpolation_scenario_witness :
    newRadius ⟨0, 0, num 50, num 200, num 0, false, []⟩ 0 = num 50 ∧
      newRadius ⟨0, 0, num 50, num 200, num 0, false, []⟩ (0 + 100) = num 125 ∧
      newRadius ⟨0, 0, num 50, num 200, num 0, false, []⟩ (0 + 500) = num 200 := by
  obtain ⟨h1, h2, h3⟩ := radius_interpolation_scenario 0 0 0 false []
  exact ⟨h1, h2, h3 500 (by norm_num)⟩

/-- C3, code evaluated at the failing input: from the initial state (no
input event has occurred), one animation frame at any time `now`
succeeds and leaves every particle with NaN position components, so the
claimed invariant that every reachable state has finite particle
positions fails at a reachable state. -/
theorem first_frame_positions_nan (w h : ℚ) (rng0 rng : ℕ → ℚ) (now : ℚ) (fuel : ℕ)
    (hf : 1 ≤ fuel) :
    ∃ cmds s2, drawSceneStep (initState w h rng0) now rng fuel = some (cmds, s2) ∧
      step (initState w h rng0) (.frame now rng fuel) = s2 ∧
      s2.squares.length = numberOfSquares ∧
      ∀ sq ∈ s2.squares, sq.x = JsNum.nan ∧ sq.y = JsNum.nan := by
  obtain ⟨f, rfl⟩ : ∃ f, fuel = f + 1 := ⟨fuel - 1, by omega⟩
  have hg : generatePointsInSphere
      ⟨num (initState w h rng0).mouseX, num (initState w h rng0).mouseY, num 0⟩
      (newRadius (initState w h rng0) now) rng (f + 1) (initState w h rng0).squares.length 0 =
      some (List.replicate (initState w h rng0).squares.length
        ⟨JsNum.nan, JsNum.nan, JsNum.nan⟩, 0 + 3 * (initState w h rng0).squares.length) := by
    rw [newRadius_initState]
    exact generatePoints_nan _ rng f _ 0
  have hd := drawSceneStep_eq_some (initState w h rng0) now rng (f + 1) _ _ hg
  refine ⟨_, _, hd, by simp [step, hd], ?_, ?_⟩
  · simp [List.length_zip, List.length_replicate, initState, initSquares_length]
  · intro sq hsq
    simp only [List.mem_map] at hsq
    obtain ⟨⟨sq0, pt⟩, hpr, rfl⟩ := hsq
    have h2 := List.eq_of_mem_replicate (List.of_mem_zip hpr).2
    simp [processSquare, h2]

/-- C3, witness at a concrete input: canvas size 0, all random draws 0,
frame at time 0 with one unit of fuel. -/
theorem first_frame_positions_nan_witness :
    ∃ cmds s2, drawSceneStep (initState 0 0 fun _ => 0) 0 (fun _ => 0) 1 = some (cmds, s2) ∧
      step (initState 0 0 fun _ => 0) (.frame 0 (fun _ => 0) 1) = s2 ∧
      s2.squares.length = numberOfSquares ∧
      ∀ sq ∈ s2.squares, sq.x = JsNum.nan ∧ sq.y = JsNum.nan :=
  first_frame_positions_nan 0 0 (fun _ => 0) (fun _ => 0) 0 1 (by norm_num)

/-- C4: whenever `generatePointsInSphere` returns (the rejection loops
all terminate within their fuel), the returned list has exactly the
requested number of points and every returned point `p` satisfies the
exact containment bound: the squared distance from `p` to the center is
at most the squared radius. -/
theorem generatePointsInSphere_containment (cx cy cz r : ℚ) (rng : ℕ → ℚ) (fuel n k : ℕ)
    (ps : List P3) (k2 : ℕ)
    (hg : generatePointsInSphere ⟨num cx, num cy, num cz⟩ (num r) rng fuel n k =
      some (ps, k2)) :
    ps.length = n ∧
      ∀ p ∈ ps, ∃ px py pz : ℚ, p = ⟨num px, num py, num pz⟩ ∧
        (px - cx) ^ 2 + (py - cy) ^ 2 + (pz - cz) ^ 2 ≤ r ^ 2 := by
  refine ⟨generatePoints_length _ _ rng fuel n k ps k2 hg, ?_⟩
  intro p hp
  obtain ⟨px, py, pz, rfl, hle⟩ :=
    generatePoints_num_sound cx cy cz r rng fuel n k ps k2 hg p hp
  exact ⟨px, py, pz, rfl, by simpa [pow_two] using hle⟩

/-- C4, witness at a concrete input: center (0, 0, 0), radius 0, two
points requested, random stream constantly one half, fuel 1. -/
theorem generatePointsInSphere_containment_witness :
    (List.replicate 2 (⟨num 0, num 0, num 0⟩ : P3)).length = 2 ∧
      ∀ p ∈ List.replicate 2 (⟨num 0, num 0, num 0⟩ : P3), ∃ px py pz : ℚ,
        p = ⟨num px, num py, num pz⟩ ∧
        (px - 0) ^ 2 + (py - 0) ^ 2 + (pz - 0) ^ 2 ≤ (0 : ℚ) ^ 2 :=
  generatePointsInSphere_containment 0 0 0 0 (fun _ => 1 / 2) 1 2 0
    (List.replicate 2 ⟨num 0, num 0, num 0⟩) 6
    (by simpa using generatePoints_radius_zero 0 0 0 (fun _ => 1 / 2) 0 2 0)

/-- C5: with radius 0 the rejection loop accepts its first candidate
(the boundary comparison accepts squared distance equal to squared
radius, which is 0 = 0), terminating immediately for any random stream
and any positive fuel; and the call with center (0, 0, 0), radius 0 and
count 5 returns exactly 5 copies of the point (0, 0, 0). -/
theorem radius_zero_first_candidate_accepted (cx cy cz : ℚ) (rng : ℕ → ℚ) (fuel k : ℕ)
    (hf : 1 ≤ fuel) :
    samplePoint ⟨num cx, num cy, num cz⟩ (num 0) rng fuel k =
        some (⟨num cx, num cy, num cz⟩, k + 3) ∧
      generatePointsInSphere ⟨num 0, num 0, num 0⟩ (num 0) rng fuel 5 0 =
        some (List.replicate 5 ⟨num 0, num 0, num 0⟩, 15) := by
  obtain ⟨f, rfl⟩ : ∃ f, fuel = f + 1 := ⟨fuel - 1, by omega⟩
  exact ⟨samplePoint_radius_zero cx cy cz rng f k,
    by simpa using generatePoints_radius_zero 0 0 0 rng f 5 0⟩

/-- C5, witness at a concrete input: center (2, 3, 4), the identity
random stream, fuel 1. -/
theorem radius_zero_first_candidate_accepted_witness :
    samplePoint ⟨num 2, num 3, num 4⟩ (num 0) (fun n => (n : ℚ)) 1 0 =
        some (⟨num 2, num 3, num 4⟩, 0 + 3) ∧
      generatePointsInSphere ⟨num 0, num 0, num 0⟩ (num 0) (fun n => (n : ℚ)) 1 5 0 =
        some (List.replicate 5 ⟨num 0, num 0, num 0⟩, 15) :=
  radius_zero_first_candidate_accepted 2 3 4 (fun n => (n : ℚ)) 1 0 (by norm_num)

/-- C7: the composite transform folded in the order projection,
translation, rotation, scaling by repeated `m3.multiply` (lines
176-179), applied to a homogeneous point under the row-vector
convention of the shader, equals applying scaling first, then rotation,
then translation, then projection, for all parameters and all points;
in particular for translation (5, 5), rotation by pi over 2, scaling
(2, 1) and the point (1, 0, 1). -/
theorem composition_applies_scale_first :
    (∀ (width height tx ty angle sx sy : ℝ) (v : ℝ × ℝ × ℝ),
        applyMat (composedMatrix width height tx ty angle sx sy) v =
          applyMat (m3.projection width height)
            (applyMat (m3.translation tx ty)
              (applyMat (m3.rotation angle) (applyMat (m3.scaling sx sy) v)))) ∧
      ∀ width height : ℝ,
        applyMat (composedMatrix width height 5 5 (Real.pi / 2) 2 1) (1, 0, 1) =
          applyMat (m3.projection width height)
            (applyMat (m3.translation 5 5)
              (applyMat (m3.rotation (Real.pi / 2))
                (applyMat (m3.scaling 2 1) (1, 0, 1)))) := by
  have hgen : ∀ (width height tx ty angle sx sy : ℝ) (v : ℝ × ℝ × ℝ),
      applyMat (composedMatrix width height tx ty angle sx sy) v =
        applyMat (m3.projection width height)
          (applyMat (m3.translation tx ty)
            (applyMat (m3.rotation angle) (applyMat (m3.scaling sx sy) v))) := by
    intro width height tx ty angle sx sy v
    obtain ⟨x, y, z⟩ := v
    simp only [composedMatrix, m3.multiply, m3.projection, m3.translation, m3.rotation,
      m3.scaling, applyMat, Prod.mk.injEq]
    refine ⟨by ring, by ring, by ring⟩
  exact ⟨hgen, fun width height => hgen width height 5 5 (Real.pi / 2) 2 1 (1, 0, 1)⟩

/-- C8: the projection matrix for a 800 by 600 viewport maps the pixel
point (0, 0) to clip-space (-1, 1) and the pixel point (800, 600) to
clip-space (1, -1) (third homogeneous component 1 in both cases). -/
theorem projection_corner_mapping :
    applyMat (m3.projection 800 600) (0, 0, 1) = (-1, 1, 1) ∧
      applyMat (m3.projection 800 600) (800, 600, 1) = (1, -1, 1) := by
  constructor <;>
    · simp only [applyMat, m3.projection, Prod.mk.injEq]
      norm_num

/-- C9: on every tick and for every entity index i, the emitted draw
command is built from the position of entity i stored before this tick
(the geometry is the fixed 5 by 5 square at that pre-update position
and the translation parameter is that position, with the stored
rotation and scale), and the stored position of entity i is then set to
exactly half of the x and y coordinates of the i-th sampled sphere
point (rotation and scale are left unchanged). -/
theorem draw_uses_preupdate_position (s : SimState) (now : ℚ) (rng : ℕ → ℚ) (fuel : ℕ)
    (pts : List P3) (k : ℕ) (cmds : List DrawCommand) (s2 : SimState)
    (hg : generatePointsInSphere ⟨num s.mouseX, num s.mouseY, num 0⟩ (newRadius s now) rng fuel
      s.squares.length 0 = some (pts, k))
    (hd : drawSceneStep s now rng fuel = some (cmds, s2)) :
    cmds.length = s.squares.length ∧ s2.squares.length = s.squares.length ∧
      ∀ i, i < s.squares.length →
        cmds.getD i default =
          { vertices :=
              triangleVertices (s.squares.getD i default).x (s.squares.getD i default).y
            translation := ((s.squares.getD i default).x, (s.squares.getD i default).y)
            rotationInRadians := (s.squares.getD i default).rotationInRadians
            scaleX := (s.squares.getD i default).scaleX
            scaleY := (s.squares.getD i default).scaleY } ∧
        s2.squares.getD i default =
          { x := (pts.getD i default).x * num 0.5
            y := (pts.getD i default).y * num 0.5
            rotationInRadians := (s.squares.getD i default).rotationInRadians
            scaleX := (s.squares.getD i default).scaleX
            scaleY := (s.squares.getD i default).scaleY } := by
  have hmain := drawSceneStep_eq_some s now rng fuel pts k hg
  rw [hd, Option.some.injEq, Prod.mk.injEq] at hmain
  obtain ⟨hc, hs⟩ := hmain
  have hlp : pts.length = s.squares.length :=
    generatePoints_length _ _ rng fuel _ 0 pts k hg
  have hzl : (s.squares.zip pts).length = s.squares.length := by
    rw [List.length_zip, hlp, min_self]
  have hs2 : s2.squares = (s.squares.zip pts).map fun pr => (processSquare pr.1 pr.2).2 := by
    rw [hs]
  subst hc
  refine ⟨by rw [List.length_map, hzl], by rw [hs2, List.length_map, hzl], ?_⟩
  intro i hi
  have hip : i < pts.length := by rw [hlp]; exact hi
  have hi1 : i < (((s.squares.zip pts).map fun pr => (processSquare pr.1 pr.2).1)).length := by
    rw [List.length_map, hzl]; exact hi
  have hi2 : i < (((s.squares.zip pts).map fun pr => (processSquare pr.1 pr.2).2)).length := by
    rw [List.length_map, hzl]; exact hi
  constructor
  · rw [List.getD_eq_getElem _ _ hi1, List.getElem_map, List.getElem_zip,
      List.getD_eq_getElem s.squares default hi]
    simp [processSquare]
  · rw [hs2, List.getD_eq_getElem _ _ hi2, List.getElem_map, List.getElem_zip,
      List.getD_eq_getElem s.squares default hi, List.getD_eq_getElem pts default hip]
    simp [processSquare]

/-- C9, witness at a concrete input: one square stored at (1, 2), a tick
at time 0 with radius 0, so the sampled point is (0, 0, 0); the emitted
command uses the pre-update position (1, 2) and the stored position
becomes half of (0, 0). -/
theorem draw_uses_preupdate_position_witness :
    ([{ vertices := triangleVertices (num 1) (num 2), translation := (num 1, num 2),
        rotationInRadians := num 0, scaleX := num 1, scaleY := num 1 }] :
          List DrawCommand).getD 0 default =
        { vertices := triangleVertices (num 1) (num 2), translation := (num 1, num 2),
          rotationInRadians := num 0, scaleX := num 1, scaleY := num 1 } ∧
      ([(⟨num 0 * num 0.5, num 0 * num 0.5, num 0, num 1, num 1⟩ : Square)]).getD 0 default =
        { x := num 0 * num 0.5, y := num 0 * num 0.5, rotationInRadians := num 0,
          scaleX := num 1, scaleY := num 1 } := by
  have hg : generatePointsInSphere ⟨num 0, num 0, num 0⟩
      (newRadius ⟨0, 0, num 0, num 0, num 0, false, [⟨num 1, num 2, num 0, num 1, num 1⟩]⟩ 0)
      (fun _ => 0) 1 1 0 = some ([⟨num 0, num 0, num 0⟩], 3) := by
    rw [newRadius_num]
    norm_num
    simpa using generatePoints_radius_zero 0 0 0 (fun _ => 0) 0 1 0
  have h := draw_uses_preupdate_position
    ⟨0, 0, num 0, num 0, num 0, false, [⟨num 1, num 2, num 0, num 1, num 1⟩]⟩ 0 (fun _ => 0) 1
    [⟨num 0, num 0, num 0⟩] 3
    [{ vertices := triangleVertices (num 1) (num 2), translation := (num 1, num 2),
       rotationInRadians := num 0, scaleX := num 1, scaleY := num 1 }]
    { mouseX := 0, mouseY := 0, radius := num 0, wantedRadius := num 0, lerpStart := num 0,
      colorMode := false,
      squares := [⟨num 0 * num 0.5, num 0 * num 0.5, num 0, num 1, num 1⟩] }
    hg (drawSceneStep_eq_some _ 0 (fun _ => 0) 1 [⟨num 0, num 0, num 0⟩] 3 hg)
  exact h.2.2 0 (by decide)

/-- C10: a `mousedown` or `mouseup` event whose button code is not 0
leaves the fields `radius`, `wantedRadius` and `lerpStart` (and the
whole state) unchanged. -/
theorem non_left_button_ignored (s : SimState) (b : ℕ) (now : ℚ) (hb : b ≠ 0) :
    onMousedown s b now = s ∧ onMouseup s b now = s := by
  simp [onMousedown, onMouseup, hb]

/-- C10, witness at a concrete input: button code 2 (right button)
delivered at time 5 leaves the state unchanged. -/
theorem non_left_button_ignored_witness :
    onMousedown ⟨1, 2, num 50, JsNum.nan, JsNum.nan, false, []⟩ 2 5 =
        ⟨1, 2, num 50, JsNum.nan, JsNum.nan, false, []⟩ ∧
      onMouseup ⟨1, 2, num 50, JsNum.nan, JsNum.nan, false, []⟩ 2 5 =
        ⟨1, 2, num 50, JsNum.nan, JsNum.nan, false, []⟩ :=
  non_left_button_ignored ⟨1, 2, num 50, JsNum.nan, JsNum.nan, false, []⟩ 2 5 (by norm_num)

end Particles
